import Mathlib

/-!
Verification development for the Black-Scholes option pricer
(`bs_option_pricer.py` and `bs_option_pricer_oop.py`).

Embedding conventions:
* Python floats are modelled as real numbers (`ℝ`); `scipy.stats.norm.cdf` and
  `norm.pdf` are the mathematical standard-normal CDF and PDF (`normCdf`,
  `normPdf` below).
* The option-type argument is a `String`, compared against the literal lists
  `["c", "call"]` and `["p", "put"]` exactly as the source does; a Python
  function that can fall through all branches (returning `None`) is embedded
  with result type `Option ℝ`.
* For claims about Python exception behaviour, a second, exception-faithful
  evaluator `bsmodelPy` models the partiality of `math.log`, `math.sqrt` and
  division (`ValueError` on a non-positive logarithm argument,
  `ZeroDivisionError` on a zero divisor), following the evaluation order of
  the source line `d1 = (math.log(S/K) + (r + (sigma**2)/2)*t)/(sigma*math.sqrt(t))`.
* The fragments of `get_input` that the claims mention (percentage handling of
  the rate/volatility strings, day-count conversion of the maturity) are
  embedded over exact rationals, with Python `float(str)` modelled by the
  decimal parser `pyFloat`.
-/

namespace BSPricer

open MeasureTheory Set

/-! ### Python-level primitives -/

/-- Python exceptions that the modelled fragments can raise.  `valueError`
covers both `float()` parse failures and `math domain error`. -/
inductive PyErr where
  | valueError
  | zeroDivisionError
  | attributeError
  deriving DecidableEq, Repr

/-- Scan a digit string (the part of a decimal literal around the dot):
returns the digits before the dot and after the dot, or `none` if a
non-digit character occurs.  First argument is the reversed-accumulated
integer part. -/
def pyFloatScan : List Char → List Char → Option (List Char × List Char)
  | acc, [] => some (acc.reverse, [])
  | acc, '.' :: rest =>
      if rest.all (fun c => c.isDigit) then some (acc.reverse, rest) else none
  | acc, c :: rest =>
      if c.isDigit then pyFloatScan (c :: acc) rest else none

/-- Exact rational value of a decimal literal given its integer-part and
fractional-part digit lists. -/
def decVal (intPart fracPart : List Char) : ℚ :=
  (intPart.foldl (fun a c => 10 * a + ((c.toNat - 48 : ℕ) : ℚ)) 0) +
    (fracPart.foldr (fun c a => (((c.toNat - 48 : ℕ) : ℚ) + a) / 10) 0)

/-- Model of CPython `float(s)` restricted to plain decimal literals: an
optional sign, then digits with at most one decimal point and at least one
digit.  Any other character (for example `%`) raises `ValueError`.  The
result is the exact rational value of the literal. -/
def pyFloat (s : String) : Except PyErr ℚ :=
  let core : List Char → ℚ → Except PyErr ℚ := fun l sign =>
    match pyFloatScan [] l with
    | some (w, f) =>
        if 0 < w.length + f.length then .ok (sign * decVal w f) else .error .valueError
    | none => .error .valueError
  match s.data with
  | '-' :: rest => core rest (-1)
  | '+' :: rest => core rest 1
  | l => core l 1

/-- Python `s.replace(",", ".")` (single-character replacement). -/
def replaceCommaDot (s : String) : String :=
  ⟨s.data.map (fun c => if c = ',' then '.' else c)⟩

/-- Python `s.replace("%", "")`. -/
def stripPct (s : String) : String :=
  ⟨s.data.filter (fun c => c ≠ '%')⟩

/-- Python `"%" in s` for a string `s`. -/
def containsPct (s : String) : Bool :=
  s.data.contains '%'

/-- Python `"%" in str(x)` where `x` is a float.  The `str()` representation
of a float consists of digits, an optional sign, a decimal point and possibly
an exponent marker, so it never contains `%`; the test is constantly false. -/
def floatReprContainsPct (_ : ℚ) : Bool := false

/-- The rate (and, identically, volatility) collection step of
`bs_option_pricer.get_input` (lines 84-89 resp. 96-101): after the
comma-to-dot replacement, a string containing `%` has the `%` removed and the
parsed value divided by 100; otherwise the string is parsed directly. -/
def procPctScalar (s : String) : Except PyErr ℚ :=
  let r := replaceCommaDot s
  if containsPct r then (pyFloat (stripPct r)).map (fun v => v / 100)
  else pyFloat r

/-- The rate (and, identically, volatility) collection step of
`bs_option_pricer_oop.get_input` (lines 124-129 resp. 136-141): the string is
converted with `float()` FIRST, and only then is `"%" in str(r)` tested on
the resulting float.  The test is constantly false (`floatReprContainsPct`),
so the percentage branch is unreachable; were it taken, it would call
`.replace` on a float, an `AttributeError`. -/
def oopPctScalar (s : String) : Except PyErr ℚ := do
  let r ← pyFloat (replaceCommaDot s)
  if floatReprContainsPct r then .error .attributeError else .ok r

/-- The maturity collection step, identical in both variants
(`bs_option_pricer.py` lines 91-94, `bs_option_pricer_oop.py` lines
131-134): parse, then convert a value greater than 1 from days to years. -/
def getInputMaturity (s : String) : Except PyErr ℚ :=
  (pyFloat (replaceCommaDot s)).map (fun t => if 1 < t then t / 365 else t)

/-! ### Standard normal distribution (`scipy.stats.norm.cdf` / `norm.pdf`) -/

/-- Standard normal cumulative distribution function. -/
noncomputable def normCdf (x : ℝ) : ℝ :=
  (∫ t in Iic x, Real.exp (-(t ^ 2 / 2))) / Real.sqrt (2 * Real.pi)

/-- Standard normal probability density function. -/
noncomputable def normPdf (x : ℝ) : ℝ :=
  Real.exp (-(x ^ 2 / 2)) / Real.sqrt (2 * Real.pi)

/-! ### Procedural variant: `bs_option_pricer.py` -/

/-- The expression `(math.log(S/K) + (r + (sigma**2)/2)*t)/(sigma*math.sqrt(t))`,
recomputed verbatim at the start of `bsmodel`, `delta`, `gamma`, `theta`,
`vega` and `rho`. -/
noncomputable def d1 (S K r t sigma : ℝ) : ℝ :=
  (Real.log (S / K) + (r + sigma ^ 2 / 2) * t) / (sigma * Real.sqrt t)

/-- `bsmodel` (lines 30-66): the option price; `None` when the option type
matches neither branch. -/
noncomputable def bsmodel (option_type : String) (S K r t sigma : ℝ) : Option ℝ :=
  let d1v := d1 S K r t sigma
  let d2v := d1v - sigma * Real.sqrt t
  if option_type ∈ ["c", "call"] then
    some (normCdf d1v * S - normCdf d2v * K * Real.exp (-r * t))
  else if option_type ∈ ["p", "put"] then
    some (Real.exp (-r * t) * K * normCdf (-d2v) - S * normCdf (-d1v))
  else none

/-- `delta` (lines 109-121). -/
noncomputable def delta (option_type : String) (S K r t sigma : ℝ) : Option ℝ :=
  let d1v := d1 S K r t sigma
  if option_type ∈ ["c", "call"] then some (normCdf d1v)
  else if option_type ∈ ["p", "put"] then some (-normCdf (-d1v))
  else none

/-- `gamma` (lines 124-133); takes no option type. -/
noncomputable def gamma (S K r t sigma : ℝ) : ℝ :=
  normPdf (d1 S K r t sigma) / (S * sigma * Real.sqrt t)

/-- `theta` (lines 135-150). -/
noncomputable def theta (option_type : String) (S K r t sigma : ℝ) : Option ℝ :=
  let d1v := d1 S K r t sigma
  let d2v := d1v - sigma * Real.sqrt t
  if option_type ∈ ["c", "call"] then
    some ((-S * normPdf d1v * sigma / (2 * Real.sqrt t)
      - r * K * Real.exp (-r * t) * normCdf d2v) / 365)
  else if option_type ∈ ["p", "put"] then
    some ((-S * normPdf d1v * sigma / (2 * Real.sqrt t)
      + r * K * Real.exp (-r * t) * normCdf (-d2v)) / 365)
  else none

/-- `vega` (lines 153-162); takes no option type. -/
noncomputable def vega (S K r t sigma : ℝ) : ℝ :=
  S * Real.sqrt t * normPdf (d1 S K r t sigma) / 100

/-- `rho` (lines 165-179). -/
noncomputable def rho (option_type : String) (S K r t sigma : ℝ) : Option ℝ :=
  let d1v := d1 S K r t sigma
  let d2v := d1v - sigma * Real.sqrt t
  if option_type ∈ ["c", "call"] then
    some (K * t * Real.exp (-r * t) * normCdf d2v / 100)
  else if option_type ∈ ["p", "put"] then
    some (-K * t * Real.exp (-r * t) * normCdf (-d2v) / 100)
  else none

/-! ### Exception-faithful evaluator for the procedural `bsmodel` -/

/-- Python `math.log`: raises `ValueError: math domain error` on a
non-positive argument. -/
noncomputable def mathLog (x : ℝ) : Except PyErr ℝ :=
  if 0 < x then .ok (Real.log x) else .error .valueError

/-- Python `math.sqrt`: raises `ValueError: math domain error` on a negative
argument. -/
noncomputable def mathSqrt (x : ℝ) : Except PyErr ℝ :=
  if 0 ≤ x then .ok (Real.sqrt x) else .error .valueError

/-- Python float division: raises `ZeroDivisionError` on a zero divisor. -/
noncomputable def pyDiv (a b : ℝ) : Except PyErr ℝ :=
  if b = 0 then .error .zeroDivisionError else .ok (a / b)

/-- `bsmodel` with Python exception semantics, following the evaluation
order of the source: `S/K`, then `math.log`, then `math.sqrt(t)`, then the
division by `sigma*math.sqrt(t)`.  The result is `.ok none` when the option
type matches neither branch (Python falls through and returns `None`). -/
noncomputable def bsmodelPy (option_type : String) (S K r t sigma : ℝ) :
    Except PyErr (Option ℝ) :=
  match pyDiv S K with
  | .error e => .error e
  | .ok q =>
    match mathLog q with
    | .error e => .error e
    | .ok lg =>
      match mathSqrt t with
      | .error e => .error e
      | .ok st =>
        match pyDiv (lg + (r + sigma ^ 2 / 2) * t) (sigma * st) with
        | .error e => .error e
        | .ok d1v =>
          let d2v := d1v - sigma * st
          if option_type ∈ ["c", "call"] then
            .ok (some (normCdf d1v * S - normCdf d2v * K * Real.exp (-r * t)))
          else if option_type ∈ ["p", "put"] then
            .ok (some (Real.exp (-r * t) * K * normCdf (-d2v) - S * normCdf (-d1v)))
          else
            .ok none

/-! ### Object-oriented variant: `bs_option_pricer_oop.py` -/

/-- The fields of `BlackScholesModel.__init__`. -/
structure BlackScholesModel where
  option_type : String
  S : ℝ
  K : ℝ
  r : ℝ
  t : ℝ
  sigma : ℝ

/-- `calculate_d1_d2` (lines 18-24). -/
noncomputable def BlackScholesModel.calculate_d1_d2 (m : BlackScholesModel) : ℝ × ℝ :=
  let d1 := (Real.log (m.S / m.K) + (m.r + m.sigma ^ 2 / 2) * m.t) /
    (m.sigma * Real.sqrt m.t)
  (d1, d1 - m.sigma * Real.sqrt m.t)

/-- `calculate_N_values` (lines 26-35): `(N_d1, N_d1_gamma_theta_vega, N_d2,
N_neg_d1, N_neg_d2)`. -/
noncomputable def BlackScholesModel.calculate_N_values (_ : BlackScholesModel)
    (d1 d2 : ℝ) : ℝ × ℝ × ℝ × ℝ × ℝ :=
  (normCdf d1, normPdf d1, normCdf d2, normCdf (-d1), normCdf (-d2))

/-- `calculate_call_price` (lines 37-41). -/
noncomputable def BlackScholesModel.calculate_call_price (m : BlackScholesModel)
    (N_d1 N_d2 : ℝ) : ℝ :=
  N_d1 * m.S - N_d2 * m.K * Real.exp (-m.r * m.t)

/-- `calculate_put_price` (lines 43-47). -/
noncomputable def BlackScholesModel.calculate_put_price (m : BlackScholesModel)
    (N_neg_d1 N_neg_d2 : ℝ) : ℝ :=
  m.K * Real.exp (-m.r * m.t) * N_neg_d2 - m.S * N_neg_d1

/-- `calculate_delta` (lines 49-56); falls through to `None` when the stored
option type matches neither branch. -/
noncomputable def BlackScholesModel.calculate_delta (m : BlackScholesModel)
    (N_d1 N_neg_d1 : ℝ) : Option ℝ :=
  if m.option_type ∈ ["c", "call"] then some N_d1
  else if m.option_type ∈ ["p", "put"] then some (-N_neg_d1)
  else none

/-- `calculate_gamma` (lines 58-62). -/
noncomputable def BlackScholesModel.calculate_gamma (m : BlackScholesModel)
    (N_d1_gamma_theta_vega : ℝ) : ℝ :=
  N_d1_gamma_theta_vega / (m.S * m.sigma * Real.sqrt m.t)

/-- `calculate_theta` (lines 64-72).  When the stored option type matches
neither branch the Python function raises `UnboundLocalError` at
`theta / 365`; this is modelled as `none`. -/
noncomputable def BlackScholesModel.calculate_theta (m : BlackScholesModel)
    (N_d1_gamma_theta_vega N_d2 N_neg_d2 : ℝ) : Option ℝ :=
  if m.option_type ∈ ["c", "call"] then
    some ((-m.S * N_d1_gamma_theta_vega * m.sigma / (2 * Real.sqrt m.t)
      - m.r * m.K * Real.exp (-m.r * m.t) * N_d2) / 365)
  else if m.option_type ∈ ["p", "put"] then
    some ((-m.S * N_d1_gamma_theta_vega * m.sigma / (2 * Real.sqrt m.t)
      + m.r * m.K * Real.exp (-m.r * m.t) * N_neg_d2) / 365)
  else none

/-- `calculate_vega` (lines 74-78). -/
noncomputable def BlackScholesModel.calculate_vega (m : BlackScholesModel)
    (N_d1_gamma_theta_vega : ℝ) : ℝ :=
  m.S * Real.sqrt m.t * N_d1_gamma_theta_vega / 100

/-- `calculate_rho` (lines 80-87); falls through to `None` when the stored
option type matches neither branch. -/
noncomputable def BlackScholesModel.calculate_rho (m : BlackScholesModel)
    (N_d2 N_neg_d2 : ℝ) : Option ℝ :=
  if m.option_type ∈ ["c", "call"] then
    some (m.K * m.t * Real.exp (-m.r * m.t) * N_d2 / 100)
  else if m.option_type ∈ ["p", "put"] then
    some (-m.K * m.t * Real.exp (-m.r * m.t) * N_neg_d2 / 100)
  else none

/-- The tuple returned by `calculate_option_metrics` (lines 89-107), with
fields named after the local variables of the source. -/
structure OptionMetrics where
  call_price : ℝ
  put_price : ℝ
  delta_value : Option ℝ
  gamma_value : ℝ
  theta_value : Option ℝ
  vega_value : ℝ
  rho_value : Option ℝ

/-- `calculate_option_metrics` (lines 89-107). -/
noncomputable def BlackScholesModel.calculate_option_metrics (m : BlackScholesModel) :
    OptionMetrics :=
  let dd := m.calculate_d1_d2
  let nv := m.calculate_N_values dd.1 dd.2
  { call_price := m.calculate_call_price nv.1 nv.2.2.1
    put_price := m.calculate_put_price nv.2.2.2.1 nv.2.2.2.2
    delta_value := m.calculate_delta nv.1 nv.2.2.2.1
    gamma_value := m.calculate_gamma nv.2.1
    theta_value := m.calculate_theta nv.2.1 nv.2.2.1 nv.2.2.2.2
    vega_value := m.calculate_vega nv.2.1
    rho_value := m.calculate_rho nv.2.2.1 nv.2.2.2.2 }

/-! ### Analytic facts about the standard normal distribution -/

lemma gauss_fun_eq :
    (fun t : ℝ => Real.exp (-(t ^ 2 / 2))) = fun t : ℝ => Real.exp (-(1 / 2 : ℝ) * t ^ 2) := by
  funext t
  ring_nf

lemma integrable_gauss : Integrable (fun t : ℝ => Real.exp (-(t ^ 2 / 2))) := by
  rw [gauss_fun_eq]
  exact integrable_exp_neg_mul_sq (by norm_num)

lemma integral_gauss_total :
    (∫ t : ℝ, Real.exp (-(t ^ 2 / 2))) = Real.sqrt (2 * Real.pi) := by
  rw [gauss_fun_eq, integral_gaussian]
  congr 1
  ring

lemma sqrt_two_pi_pos : 0 < Real.sqrt (2 * Real.pi) :=
  Real.sqrt_pos.mpr (by positivity)

lemma integral_gauss_Iic_neg (x : ℝ) :
    (∫ t in Iic (-x), Real.exp (-(t ^ 2 / 2))) = ∫ t in Ioi x, Real.exp (-(t ^ 2 / 2)) := by
  have h := integral_comp_neg_Iic (-x) fun t : ℝ => Real.exp (-(t ^ 2 / 2))
  rw [neg_neg] at h
  simp only [neg_sq] at h
  exact h

lemma normCdf_add_neg (x : ℝ) : normCdf x + normCdf (-x) = 1 := by
  unfold normCdf
  rw [integral_gauss_Iic_neg, div_add_div_same,
    intervalIntegral.integral_Iic_add_Ioi integrable_gauss.integrableOn
      integrable_gauss.integrableOn,
    integral_gauss_total, div_self (ne_of_gt sqrt_two_pi_pos)]

lemma normCdf_nonneg (x : ℝ) : 0 ≤ normCdf x :=
  div_nonneg (setIntegral_nonneg measurableSet_Iic fun _ _ => (Real.exp_pos _).le)
    (Real.sqrt_nonneg _)

lemma normCdf_le_one (x : ℝ) : normCdf x ≤ 1 := by
  have h := normCdf_add_neg x
  have h2 := normCdf_nonneg (-x)
  linarith

lemma normPdf_pos (x : ℝ) : 0 < normPdf x :=
  div_pos (Real.exp_pos _) sqrt_two_pi_pos

lemma normCdf_eq_half_add (x : ℝ) :
    normCdf x = 1 / 2 + (∫ t in (0:ℝ)..x, Real.exp (-(t ^ 2 / 2))) / Real.sqrt (2 * Real.pi) := by
  have hhalf : (∫ t in Iic (0:ℝ), Real.exp (-(t ^ 2 / 2))) = Real.sqrt (2 * Real.pi) / 2 := by
    have h := normCdf_add_neg 0
    rw [neg_zero] at h
    unfold normCdf at h
    have hs := sqrt_two_pi_pos
    rw [div_add_div_same] at h
    have h4 := (div_eq_one_iff_eq (ne_of_gt hs)).mp h
    linarith
  have hsub := intervalIntegral.integral_Iic_sub_Iic
    (f := fun t : ℝ => Real.exp (-(t ^ 2 / 2))) (μ := volume)
    (a := 0) (b := x) integrable_gauss.integrableOn integrable_gauss.integrableOn
  unfold normCdf
  rw [show (∫ t in Iic x, Real.exp (-(t ^ 2 / 2)))
      = Real.sqrt (2 * Real.pi) / 2 + ∫ t in (0:ℝ)..x, Real.exp (-(t ^ 2 / 2)) by
    rw [← hhalf]; linarith [hsub]]
  rw [add_div]
  congr 1
  rw [div_div, mul_comm (2:ℝ) (Real.sqrt (2 * Real.pi)), ← div_div,
    div_self (ne_of_gt sqrt_two_pi_pos)]

/-! ### Explicit numeric bounds via Taylor polynomials -/

lemma exp_taylor_cubic_bound {u : ℝ} (h0 : 0 ≤ u) (h1 : u ≤ 1) :
    |Real.exp (-u) - (1 - u + u ^ 2 / 2 - u ^ 3 / 6)| ≤ 5 * u ^ 4 / 96 := by
  have habs : |(-u)| ≤ 1 := by rw [abs_neg, abs_of_nonneg h0]; exact h1
  have h := Real.exp_bound habs (n := 4) (by norm_num)
  have hsum : (∑ m ∈ Finset.range 4, (-u) ^ m / (m.factorial : ℝ))
      = 1 - u + u ^ 2 / 2 - u ^ 3 / 6 := by
    simp [Finset.sum_range_succ, Nat.factorial]
    ring
  have habs2 : |(-u)| = u := by rw [abs_neg, abs_of_nonneg h0]
  rw [hsum, habs2] at h
  calc |Real.exp (-u) - (1 - u + u ^ 2 / 2 - u ^ 3 / 6)|
      ≤ u ^ 4 * ((4:ℕ).succ / ((4:ℕ).factorial * 4) : ℝ) := h
    _ = 5 * u ^ 4 / 96 := by norm_num [Nat.factorial]; ring

lemma gauss_poly_bounds {t : ℝ} (h0 : 0 ≤ t) (h1 : t ≤ 1) :
    1 - t ^ 2 / 2 + t ^ 4 / 8 - t ^ 6 / 48 - 5 * t ^ 8 / 1536 ≤ Real.exp (-(t ^ 2 / 2)) ∧
      Real.exp (-(t ^ 2 / 2)) ≤ 1 - t ^ 2 / 2 + t ^ 4 / 8 - t ^ 6 / 48 + 5 * t ^ 8 / 1536 := by
  have hu0 : 0 ≤ t ^ 2 / 2 := by positivity
  have hu1 : t ^ 2 / 2 ≤ 1 := by nlinarith
  have h := exp_taylor_cubic_bound hu0 hu1
  rw [abs_le] at h
  have h1e := h.1
  have h2e := h.2
  ring_nf at h1e h2e ⊢
  constructor <;> nlinarith [h1e, h2e]

lemma integral_poly8 (a0 a2 a4 a6 a8 x : ℝ) :
    (∫ t in (0:ℝ)..x, (a0 + a2 * t ^ 2 + a4 * t ^ 4 + a6 * t ^ 6 + a8 * t ^ 8))
      = a0 * x + a2 * x ^ 3 / 3 + a4 * x ^ 5 / 5 + a6 * x ^ 7 / 7 + a8 * x ^ 9 / 9 := by
  have h0 : IntervalIntegrable (fun _ : ℝ => a0) volume 0 x := intervalIntegrable_const
  have h2 : IntervalIntegrable (fun t : ℝ => a2 * t ^ 2) volume 0 x :=
    Continuous.intervalIntegrable (by fun_prop) 0 x
  have h4 : IntervalIntegrable (fun t : ℝ => a4 * t ^ 4) volume 0 x :=
    Continuous.intervalIntegrable (by fun_prop) 0 x
  have h6 : IntervalIntegrable (fun t : ℝ => a6 * t ^ 6) volume 0 x :=
    Continuous.intervalIntegrable (by fun_prop) 0 x
  have h8 : IntervalIntegrable (fun t : ℝ => a8 * t ^ 8) volume 0 x :=
    Continuous.intervalIntegrable (by fun_prop) 0 x
  rw [intervalIntegral.integral_add (((h0.add h2).add h4).add h6) h8,
    intervalIntegral.integral_add ((h0.add h2).add h4) h6,
    intervalIntegral.integral_add (h0.add h2) h4,
    intervalIntegral.integral_add h0 h2,
    intervalIntegral.integral_const, intervalIntegral.integral_const_mul,
    intervalIntegral.integral_const_mul, intervalIntegral.integral_const_mul,
    intervalIntegral.integral_const_mul, integral_pow, integral_pow, integral_pow, integral_pow]
  simp only [smul_eq_mul]
  ring

lemma gauss_interval_bounds {x : ℝ} (h0 : 0 ≤ x) (h1 : x ≤ 1) :
    x - x ^ 3 / 6 + x ^ 5 / 40 - x ^ 7 / 336 - 5 * x ^ 9 / 13824
        ≤ (∫ t in (0:ℝ)..x, Real.exp (-(t ^ 2 / 2))) ∧
      (∫ t in (0:ℝ)..x, Real.exp (-(t ^ 2 / 2)))
        ≤ x - x ^ 3 / 6 + x ^ 5 / 40 - x ^ 7 / 336 + 5 * x ^ 9 / 13824 := by
  have hgi : IntervalIntegrable (fun t : ℝ => Real.exp (-(t ^ 2 / 2))) volume 0 x :=
    Continuous.intervalIntegrable (by fun_prop) 0 x
  have hlo : IntervalIntegrable
      (fun t : ℝ => 1 + (-1/2) * t ^ 2 + (1/8) * t ^ 4 + (-1/48) * t ^ 6 + (-5/1536) * t ^ 8)
      volume 0 x :=
    Continuous.intervalIntegrable (by fun_prop) 0 x
  have hhi : IntervalIntegrable
      (fun t : ℝ => 1 + (-1/2) * t ^ 2 + (1/8) * t ^ 4 + (-1/48) * t ^ 6 + (5/1536) * t ^ 8)
      volume 0 x :=
    Continuous.intervalIntegrable (by fun_prop) 0 x
  constructor
  · have hmono := intervalIntegral.integral_mono_on h0 hlo hgi fun t ht => by
      have hb := (gauss_poly_bounds ht.1 (le_trans ht.2 h1)).1
      linarith
    rw [integral_poly8] at hmono
    linarith
  · have hmono := intervalIntegral.integral_mono_on h0 hgi hhi fun t ht => by
      have hb := (gauss_poly_bounds ht.1 (le_trans ht.2 h1)).2
      linarith
    rw [integral_poly8] at hmono
    linarith

lemma sqrt_two_pi_bounds :
    (2.506628 : ℝ) ≤ Real.sqrt (2 * Real.pi) ∧ Real.sqrt (2 * Real.pi) ≤ 2.506629 := by
  constructor
  · rw [Real.le_sqrt' (by norm_num)]
    norm_num
    linarith [Real.pi_gt_d6]
  · rw [Real.sqrt_le_iff]
    constructor
    · norm_num
    · norm_num
      linarith [Real.pi_lt_d6]

lemma exp_neg_one_twentieth_bounds :
    (0.9512294245 : ℝ) ≤ Real.exp (-(1/20)) ∧ Real.exp (-(1/20)) ≤ 0.95122942451 := by
  have habs : |(-(1/20) : ℝ)| ≤ 1 := by
    rw [abs_neg, abs_of_nonneg (by norm_num : (0:ℝ) ≤ 1/20)]
    norm_num
  have h := Real.exp_bound habs (n := 7) (by norm_num)
  have hsum : (∑ m ∈ Finset.range 7, (-(1/20) : ℝ) ^ m / (m.factorial : ℝ))
      = 43832651881 / 46080000000 := by
    simp [Finset.sum_range_succ, Nat.factorial]
    norm_num
  have habs2 : |(-(1/20) : ℝ)| = 1/20 := by
    rw [abs_neg, abs_of_nonneg (by norm_num : (0:ℝ) ≤ 1/20)]
  rw [hsum, habs2, abs_le] at h
  have h1 := h.1
  have h2 := h.2
  norm_num [Nat.factorial] at h1 h2
  constructor <;> linarith

lemma exp_neg_49_800_bounds :
    (0.9405880632 : ℝ) ≤ Real.exp (-(49/800)) ∧ Real.exp (-(49/800)) ≤ 0.9405880634 := by
  have habs : |(-(49/800) : ℝ)| ≤ 1 := by
    rw [abs_neg, abs_of_nonneg (by norm_num : (0:ℝ) ≤ 49/800)]
    norm_num
  have h := Real.exp_bound habs (n := 6) (by norm_num)
  have hsum : (∑ m ∈ Finset.range 6, (-(49/800) : ℝ) ^ m / (m.factorial : ℝ))
      = 36985427589528751 / 39321600000000000 := by
    simp [Finset.sum_range_succ, Nat.factorial]
    norm_num
  have habs2 : |(-(49/800) : ℝ)| = 49/800 := by
    rw [abs_neg, abs_of_nonneg (by norm_num : (0:ℝ) ≤ 49/800)]
  rw [hsum, habs2, abs_le] at h
  have h1 := h.1
  have h2 := h.2
  norm_num [Nat.factorial] at h1 h2
  constructor <;> linarith

lemma normCdf_35_bounds :
    (0.63683058 : ℝ) ≤ normCdf (7/20) ∧ normCdf (7/20) ≤ 0.63683068 := by
  have hJ := gauss_interval_bounds (x := 7/20) (by norm_num) (by norm_num)
  have hs := sqrt_two_pi_bounds
  have hspos := sqrt_two_pi_pos
  have hJlo : (0.34298352 : ℝ) ≤ ∫ t in (0:ℝ)..(7/20 : ℝ), Real.exp (-(t ^ 2 / 2)) :=
    le_trans (by norm_num) hJ.1
  have hJhi : (∫ t in (0:ℝ)..(7/20 : ℝ), Real.exp (-(t ^ 2 / 2))) ≤ 0.34298359 :=
    le_trans hJ.2 (by norm_num)
  rw [normCdf_eq_half_add]
  have hd1 : (0.34298352 : ℝ) / 2.506629
      ≤ (∫ t in (0:ℝ)..(7/20 : ℝ), Real.exp (-(t ^ 2 / 2))) / Real.sqrt (2 * Real.pi) :=
    div_le_div₀ (by linarith) hJlo hspos hs.2
  have hd2 : (∫ t in (0:ℝ)..(7/20 : ℝ), Real.exp (-(t ^ 2 / 2))) / Real.sqrt (2 * Real.pi)
      ≤ (0.34298359 : ℝ) / 2.506628 :=
    div_le_div₀ (by norm_num) hJhi (by norm_num) hs.1
  constructor
  · have hnum : (0.63683058 : ℝ) ≤ 1/2 + 0.34298352/2.506629 := by norm_num
    linarith
  · have hnum : (1/2 : ℝ) + 0.34298359/2.506628 ≤ 0.63683068 := by norm_num
    linarith

lemma normCdf_15_bounds :
    (0.55961767 : ℝ) ≤ normCdf (3/20) ∧ normCdf (3/20) ≤ 0.55961771 := by
  have hJ := gauss_interval_bounds (x := 3/20) (by norm_num) (by norm_num)
  have hs := sqrt_two_pi_bounds
  have hspos := sqrt_two_pi_pos
  have hJlo : (0.14943939 : ℝ) ≤ ∫ t in (0:ℝ)..(3/20 : ℝ), Real.exp (-(t ^ 2 / 2)) :=
    le_trans (by norm_num) hJ.1
  have hJhi : (∫ t in (0:ℝ)..(3/20 : ℝ), Real.exp (-(t ^ 2 / 2))) ≤ 0.1494394 :=
    le_trans hJ.2 (by norm_num)
  rw [normCdf_eq_half_add]
  have hd1 : (0.14943939 : ℝ) / 2.506629
      ≤ (∫ t in (0:ℝ)..(3/20 : ℝ), Real.exp (-(t ^ 2 / 2))) / Real.sqrt (2 * Real.pi) :=
    div_le_div₀ (by linarith) hJlo hspos hs.2
  have hd2 : (∫ t in (0:ℝ)..(3/20 : ℝ), Real.exp (-(t ^ 2 / 2))) / Real.sqrt (2 * Real.pi)
      ≤ (0.1494394 : ℝ) / 2.506628 :=
    div_le_div₀ (by norm_num) hJhi (by norm_num) hs.1
  constructor
  · have hnum : (0.55961767 : ℝ) ≤ 1/2 + 0.14943939/2.506629 := by norm_num
    linarith
  · have hnum : (1/2 : ℝ) + 0.1494394/2.506628 ≤ 0.55961771 := by norm_num
    linarith

lemma normPdf_35_bounds :
    (0.37524023 : ℝ) ≤ normPdf (7/20) ∧ normPdf (7/20) ≤ 0.37524039 := by
  have he := exp_neg_49_800_bounds
  have hs := sqrt_two_pi_bounds
  have hspos := sqrt_two_pi_pos
  have hx : -((7/20 : ℝ) ^ 2 / 2) = -(49/800) := by norm_num
  unfold normPdf
  rw [hx]
  have hd1 : (0.9405880632 : ℝ) / 2.506629
      ≤ Real.exp (-(49/800)) / Real.sqrt (2 * Real.pi) :=
    div_le_div₀ (by linarith [he.1]) he.1 hspos hs.2
  have hd2 : Real.exp (-(49/800)) / Real.sqrt (2 * Real.pi)
      ≤ (0.9405880634 : ℝ) / 2.506628 :=
    div_le_div₀ (by norm_num) he.2 (by norm_num) hs.1
  constructor
  · have hnum : (0.37524023 : ℝ) ≤ 0.9405880632/2.506629 := by norm_num
    linarith
  · have hnum : (0.9405880634 : ℝ) / 2.506628 ≤ 0.37524039 := by norm_num
    linarith

/-! ### Branch-selection helper lemmas -/

lemma mem_call_cases {k : String} (hk : k ∈ ["c", "call"]) : k = "c" ∨ k = "call" := by
  simpa using hk

lemma mem_put_cases {k : String} (hk : k ∈ ["p", "put"]) : k = "p" ∨ k = "put" := by
  simpa using hk

lemma not_call_of_put {k : String} (hk : k ∈ ["p", "put"]) : k ∉ ["c", "call"] := by
  rcases mem_put_cases hk with rfl | rfl <;> decide

lemma bsmodel_call {k : String} (hk : k ∈ ["c", "call"]) (S K r t sigma : ℝ) :
    bsmodel k S K r t sigma
      = some (normCdf (d1 S K r t sigma) * S
          - normCdf (d1 S K r t sigma - sigma * Real.sqrt t) * K * Real.exp (-r * t)) := by
  simp only [bsmodel, if_pos hk]

lemma bsmodel_put {k : String} (hk : k ∈ ["p", "put"]) (S K r t sigma : ℝ) :
    bsmodel k S K r t sigma
      = some (Real.exp (-r * t) * K * normCdf (-(d1 S K r t sigma - sigma * Real.sqrt t))
          - S * normCdf (-(d1 S K r t sigma))) := by
  simp only [bsmodel, if_neg (not_call_of_put hk), if_pos hk]

lemma delta_call {k : String} (hk : k ∈ ["c", "call"]) (S K r t sigma : ℝ) :
    delta k S K r t sigma = some (normCdf (d1 S K r t sigma)) := by
  simp only [delta, if_pos hk]

lemma delta_put {k : String} (hk : k ∈ ["p", "put"]) (S K r t sigma : ℝ) :
    delta k S K r t sigma = some (-normCdf (-(d1 S K r t sigma))) := by
  simp only [delta, if_neg (not_call_of_put hk), if_pos hk]

lemma theta_call {k : String} (hk : k ∈ ["c", "call"]) (S K r t sigma : ℝ) :
    theta k S K r t sigma
      = some ((-S * normPdf (d1 S K r t sigma) * sigma / (2 * Real.sqrt t)
          - r * K * Real.exp (-r * t) * normCdf (d1 S K r t sigma - sigma * Real.sqrt t)) / 365) := by
  simp only [theta, if_pos hk]

lemma rho_call {k : String} (hk : k ∈ ["c", "call"]) (S K r t sigma : ℝ) :
    rho k S K r t sigma
      = some (K * t * Real.exp (-r * t)
          * normCdf (d1 S K r t sigma - sigma * Real.sqrt t) / 100) := by
  simp only [rho, if_pos hk]

lemma bsmodelPy_ok_of_valid (kind : String) (S K r t sigma : ℝ) (hS : 0 < S) (hK : 0 < K)
    (ht : 0 < t) (hsig : 0 < sigma) :
    bsmodelPy kind S K r t sigma = .ok (bsmodel kind S K r t sigma) := by
  simp only [bsmodelPy, pyDiv, mathLog, mathSqrt, bsmodel, d1,
    if_neg (ne_of_gt hK), if_pos (div_pos hS hK), if_pos ht.le,
    if_neg (ne_of_gt (show (0:ℝ) < sigma * Real.sqrt t by positivity))]
  split_ifs <;> rfl

lemma d1_ref : d1 100 100 (0.05 : ℝ) 1 (0.2 : ℝ) = 7/20 := by
  unfold d1
  rw [show (100:ℝ)/100 = 1 by norm_num, Real.log_one, Real.sqrt_one]
  norm_num

/-! ### Component lemmas for `calculate_option_metrics` -/

lemma metrics_call_price (m : BlackScholesModel) :
    m.calculate_option_metrics.call_price
      = normCdf (d1 m.S m.K m.r m.t m.sigma) * m.S
        - normCdf (d1 m.S m.K m.r m.t m.sigma - m.sigma * Real.sqrt m.t) * m.K
          * Real.exp (-m.r * m.t) := rfl

lemma metrics_put_price (m : BlackScholesModel) :
    m.calculate_option_metrics.put_price
      = m.K * Real.exp (-m.r * m.t)
          * normCdf (-(d1 m.S m.K m.r m.t m.sigma - m.sigma * Real.sqrt m.t))
        - m.S * normCdf (-(d1 m.S m.K m.r m.t m.sigma)) := rfl

/-! ### Claim theorems -/

/-- Claim C1: for every contract with positive spot, strike, maturity and
volatility, and kind Call (`"c"`/`"call"`) or Put (`"p"`/`"put"`), the price
operation `bsmodel` returns exactly the Black-Scholes closed form: with
`d1 = (ln(S/K) + (r + sigma^2/2)*t)/(sigma*sqrt t)` and `d2 = d1 - sigma*sqrt t`,
a Call is priced `Phi(d1)*S - Phi(d2)*K*exp(-r*t)` and a Put is priced
`K*exp(-r*t)*Phi(-d2) - S*Phi(-d1)`. -/
theorem price_matches_closed_form (S K r t sigma : ℝ) (hS : 0 < S) (hK : 0 < K)
    (ht : 0 < t) (hsig : 0 < sigma) (kind : String) :
    (kind ∈ ["c", "call"] → bsmodel kind S K r t sigma
      = some (normCdf ((Real.log (S / K) + (r + sigma ^ 2 / 2) * t) / (sigma * Real.sqrt t)) * S
          - normCdf ((Real.log (S / K) + (r + sigma ^ 2 / 2) * t) / (sigma * Real.sqrt t)
              - sigma * Real.sqrt t) * K * Real.exp (-r * t))) ∧
    (kind ∈ ["p", "put"] → bsmodel kind S K r t sigma
      = some (K * Real.exp (-r * t)
          * normCdf (-((Real.log (S / K) + (r + sigma ^ 2 / 2) * t) / (sigma * Real.sqrt t)
              - sigma * Real.sqrt t))
          - S * normCdf (-((Real.log (S / K) + (r + sigma ^ 2 / 2) * t)
              / (sigma * Real.sqrt t))))) := by
  constructor
  · intro hk
    rw [bsmodel_call hk]
    rfl
  · intro hk
    rw [bsmodel_put hk, Option.some.injEq]
    unfold d1
    ring

/-- Witness for C1 at `S = K = t = sigma = 1`, `r = 0`, kind `"c"`. -/
theorem price_matches_closed_form_witness :
    (("c" : String) ∈ ["c", "call"] → bsmodel "c" 1 1 0 1 1
      = some (normCdf ((Real.log (1 / 1) + (0 + 1 ^ 2 / 2) * 1) / (1 * Real.sqrt 1)) * 1
          - normCdf ((Real.log (1 / 1) + (0 + 1 ^ 2 / 2) * 1) / (1 * Real.sqrt 1)
              - 1 * Real.sqrt 1) * 1 * Real.exp (-0 * 1))) ∧
    (("c" : String) ∈ ["p", "put"] → bsmodel "c" 1 1 0 1 1
      = some (1 * Real.exp (-0 * 1)
          * normCdf (-((Real.log (1 / 1) + (0 + 1 ^ 2 / 2) * 1) / (1 * Real.sqrt 1)
              - 1 * Real.sqrt 1))
          - 1 * normCdf (-((Real.log (1 / 1) + (0 + 1 ^ 2 / 2) * 1) / (1 * Real.sqrt 1))))) :=
  price_matches_closed_form 1 1 0 1 1 one_pos one_pos one_pos one_pos "c"

/-- Claim C2: for every valid contract (`S, K, t, sigma > 0`, any real `r`),
the call price minus the put price at the same parameters equals
`S - K*exp(-r*t)` (put-call parity), exactly. -/
theorem put_call_parity (S K r t sigma : ℝ) (hS : 0 < S) (hK : 0 < K)
    (ht : 0 < t) (hsig : 0 < sigma) :
    ∃ c p : ℝ, bsmodel "call" S K r t sigma = some c ∧
      bsmodel "put" S K r t sigma = some p ∧
      c - p = S - K * Real.exp (-r * t) := by
  refine ⟨_, _, bsmodel_call (by decide) S K r t sigma,
    bsmodel_put (by decide) S K r t sigma, ?_⟩
  have h1 := normCdf_add_neg (d1 S K r t sigma)
  have h2 := normCdf_add_neg (d1 S K r t sigma - sigma * Real.sqrt t)
  linear_combination S * h1 - K * Real.exp (-r * t) * h2

/-- Witness for C2 at `S = K = t = sigma = 1`, `r = 0`. -/
theorem put_call_parity_witness :
    ∃ c p : ℝ, bsmodel "call" 1 1 0 1 1 = some c ∧
      bsmodel "put" 1 1 0 1 1 = some p ∧
      c - p = 1 - 1 * Real.exp (-0 * 1) :=
  put_call_parity 1 1 0 1 1 one_pos one_pos one_pos one_pos

/-- Claim C3 (code bug): the claim demands an InvalidInput error naming the
violated constraint, raised before any computation, for each nonpositive
input.  The code performs no input validation: evaluated with Python
exception semantics (`bsmodelPy`), `S = 0` and `K = -5` reach `math.log` and
raise the generic `ValueError: math domain error`, while `t = 0` and
`sigma = 0` make the divisor `sigma*sqrt(t)` zero and raise
`ZeroDivisionError` - exactly the generic numeric exceptions the claim
excludes. -/
theorem nonpositive_inputs_raise_numeric_errors :
    bsmodelPy "c" 0 100 0.05 1 0.2 = .error .valueError ∧
    bsmodelPy "c" 100 (-5) 0.05 1 0.2 = .error .valueError ∧
    bsmodelPy "c" 100 100 0.05 0 0.2 = .error .zeroDivisionError ∧
    bsmodelPy "c" 100 100 0.05 1 0 = .error .zeroDivisionError := by
  refine ⟨?_, ?_, ?_, ?_⟩ <;>
    · simp only [bsmodelPy, pyDiv, mathLog, mathSqrt]
      norm_num

/-- Claim C4 (code bug): the claim demands a hard InvalidInput error for an
out-of-enumeration kind, but each kind-dependent operation silently returns
`None` (the spec itself notes this looks like an oversight in the source). -/
theorem unknown_kind_returns_none :
    bsmodel "x" 100 100 0.05 1 0.2 = none ∧
    delta "x" 100 100 0.05 1 0.2 = none ∧
    theta "x" 100 100 0.05 1 0.2 = none ∧
    rho "x" 100 100 0.05 1 0.2 = none := by
  refine ⟨?_, ?_, ?_, ?_⟩ <;>
    · simp only [bsmodel, delta, theta, rho]
      rw [if_neg (by decide), if_neg (by decide)]

/-- Claim C5: the two source variants implement identical pricing logic; for
every valid contract each procedural operation agrees with the corresponding
component of `calculate_option_metrics` of the object built with the same
parameters. -/
theorem variants_equivalent (kind : String) (S K r t sigma : ℝ)
    (hS : 0 < S) (hK : 0 < K) (ht : 0 < t) (hsig : 0 < sigma)
    (hkind : kind ∈ ["c", "call", "p", "put"]) :
    (kind ∈ ["c", "call"] → bsmodel kind S K r t sigma
      = some (BlackScholesModel.mk kind S K r t sigma).calculate_option_metrics.call_price) ∧
    (kind ∈ ["p", "put"] → bsmodel kind S K r t sigma
      = some (BlackScholesModel.mk kind S K r t sigma).calculate_option_metrics.put_price) ∧
    delta kind S K r t sigma
      = (BlackScholesModel.mk kind S K r t sigma).calculate_option_metrics.delta_value ∧
    gamma S K r t sigma
      = (BlackScholesModel.mk kind S K r t sigma).calculate_option_metrics.gamma_value ∧
    theta kind S K r t sigma
      = (BlackScholesModel.mk kind S K r t sigma).calculate_option_metrics.theta_value ∧
    vega S K r t sigma
      = (BlackScholesModel.mk kind S K r t sigma).calculate_option_metrics.vega_value ∧
    rho kind S K r t sigma
      = (BlackScholesModel.mk kind S K r t sigma).calculate_option_metrics.rho_value := by
  refine ⟨fun hk => ?_, fun hk => ?_, rfl, rfl, rfl, rfl, rfl⟩
  · rw [bsmodel_call hk]
    rfl
  · rw [bsmodel_put hk, metrics_put_price, Option.some.injEq]
    ring

/-- Witness for C5 at kind `"c"`, `S = K = t = sigma = 1`, `r = 0`. -/
theorem variants_equivalent_witness :
    (("c" : String) ∈ ["c", "call"] → bsmodel "c" 1 1 0 1 1
      = some (BlackScholesModel.mk "c" 1 1 0 1 1).calculate_option_metrics.call_price) ∧
    (("c" : String) ∈ ["p", "put"] → bsmodel "c" 1 1 0 1 1
      = some (BlackScholesModel.mk "c" 1 1 0 1 1).calculate_option_metrics.put_price) ∧
    delta "c" 1 1 0 1 1
      = (BlackScholesModel.mk "c" 1 1 0 1 1).calculate_option_metrics.delta_value ∧
    gamma 1 1 0 1 1
      = (BlackScholesModel.mk "c" 1 1 0 1 1).calculate_option_metrics.gamma_value ∧
    theta "c" 1 1 0 1 1
      = (BlackScholesModel.mk "c" 1 1 0 1 1).calculate_option_metrics.theta_value ∧
    vega 1 1 0 1 1
      = (BlackScholesModel.mk "c" 1 1 0 1 1).calculate_option_metrics.vega_value ∧
    rho "c" 1 1 0 1 1
      = (BlackScholesModel.mk "c" 1 1 0 1 1).calculate_option_metrics.rho_value :=
  variants_equivalent "c" 1 1 0 1 1 one_pos one_pos one_pos one_pos (by decide)

/-- Claim C6: for every valid contract the delta operation returns a value in
`[0, 1]` for a Call and in `[-1, 0]` for a Put. -/
theorem delta_range (S K r t sigma : ℝ) (hS : 0 < S) (hK : 0 < K)
    (ht : 0 < t) (hsig : 0 < sigma) (kind : String) :
    (kind ∈ ["c", "call"] →
      ∃ v, delta kind S K r t sigma = some v ∧ 0 ≤ v ∧ v ≤ 1) ∧
    (kind ∈ ["p", "put"] →
      ∃ v, delta kind S K r t sigma = some v ∧ -1 ≤ v ∧ v ≤ 0) := by
  constructor
  · intro hk
    exact ⟨_, delta_call hk S K r t sigma, normCdf_nonneg _, normCdf_le_one _⟩
  · intro hk
    refine ⟨_, delta_put hk S K r t sigma, ?_, ?_⟩
    · have h := normCdf_le_one (-(d1 S K r t sigma))
      linarith
    · have h := normCdf_nonneg (-(d1 S K r t sigma))
      linarith

/-- Witness for C6 at `S = K = t = sigma = 1`, `r = 0`, kind `"p"`. -/
theorem delta_range_witness :
    (("p" : String) ∈ ["c", "call"] →
      ∃ v, delta "p" 1 1 0 1 1 = some v ∧ 0 ≤ v ∧ v ≤ 1) ∧
    (("p" : String) ∈ ["p", "put"] →
      ∃ v, delta "p" 1 1 0 1 1 = some v ∧ -1 ≤ v ∧ v ≤ 0) :=
  delta_range 1 1 0 1 1 one_pos one_pos one_pos one_pos "p"

/-- Claim C7: for every valid contract, `gamma` and `vega` are nonnegative,
and both are identical for a call and a put with the same parameters (the
procedural `gamma`/`vega` take no option type at all; in the object variant
the `gamma_value`/`vega_value` metrics of a call-kind and a put-kind object
with the same numeric parameters coincide). -/
theorem gamma_vega_nonneg_kind_free (S K r t sigma : ℝ) (hS : 0 < S) (hK : 0 < K)
    (ht : 0 < t) (hsig : 0 < sigma) (k1 k2 : String)
    (hk1 : k1 ∈ ["c", "call"]) (hk2 : k2 ∈ ["p", "put"]) :
    0 ≤ gamma S K r t sigma ∧ 0 ≤ vega S K r t sigma ∧
    (BlackScholesModel.mk k1 S K r t sigma).calculate_option_metrics.gamma_value
      = (BlackScholesModel.mk k2 S K r t sigma).calculate_option_metrics.gamma_value ∧
    (BlackScholesModel.mk k1 S K r t sigma).calculate_option_metrics.vega_value
      = (BlackScholesModel.mk k2 S K r t sigma).calculate_option_metrics.vega_value := by
  refine ⟨?_, ?_, rfl, rfl⟩
  · exact div_nonneg (normPdf_pos _).le (by positivity)
  · exact div_nonneg
      (mul_nonneg (mul_nonneg hS.le (Real.sqrt_nonneg _)) (normPdf_pos _).le)
      (by norm_num)

/-- Witness for C7 at `S = K = t = sigma = 1`, `r = 0`, kinds `"c"`, `"p"`. -/
theorem gamma_vega_nonneg_kind_free_witness :
    0 ≤ gamma 1 1 0 1 1 ∧ 0 ≤ vega 1 1 0 1 1 ∧
    (BlackScholesModel.mk "c" 1 1 0 1 1).calculate_option_metrics.gamma_value
      = (BlackScholesModel.mk "p" 1 1 0 1 1).calculate_option_metrics.gamma_value ∧
    (BlackScholesModel.mk "c" 1 1 0 1 1).calculate_option_metrics.vega_value
      = (BlackScholesModel.mk "p" 1 1 0 1 1).calculate_option_metrics.vega_value :=
  gamma_vega_nonneg_kind_free 1 1 0 1 1 one_pos one_pos one_pos one_pos "c" "p"
    (by decide) (by decide)

/-- Claim C8: at `S = 100, K = 100, r = 0.05, t = 1, sigma = 0.2` the engine
returns call price about 10.4506 and put price about 5.5735 (4 decimal
places), delta(call) about 0.6368, gamma about 0.01876, vega about 0.37524,
rho(call) about 0.53232 and theta(call) about -0.01757 (per-day decay: theta
divided by 365, vega and rho divided by 100 - the scalings the source
applies). -/
theorem reference_values :
    ∃ c p dl th rh : ℝ,
      bsmodel "c" 100 100 0.05 1 0.2 = some c ∧
      bsmodel "p" 100 100 0.05 1 0.2 = some p ∧
      delta "c" 100 100 0.05 1 0.2 = some dl ∧
      theta "c" 100 100 0.05 1 0.2 = some th ∧
      rho "c" 100 100 0.05 1 0.2 = some rh ∧
      |c - 10.4506| < 0.00005 ∧
      |p - 5.5735| < 0.00005 ∧
      |dl - 0.6368| < 0.00005 ∧
      |gamma 100 100 0.05 1 0.2 - 0.01876| < 0.000005 ∧
      |vega 100 100 0.05 1 0.2 - 0.37524| < 0.000005 ∧
      |rh - 0.53232| < 0.000005 ∧
      |th - (-0.01757)| < 0.000005 := by
  have hc : bsmodel "c" 100 100 (0.05:ℝ) 1 (0.2:ℝ)
      = some (normCdf (7/20) * 100 - normCdf (3/20) * 100 * Real.exp (-(1/20))) := by
    rw [bsmodel_call (by decide) 100 100 0.05 1 0.2, d1_ref]
    norm_num [Real.sqrt_one]
  have hp : bsmodel "p" 100 100 (0.05:ℝ) 1 (0.2:ℝ)
      = some (Real.exp (-(1/20)) * 100 * normCdf (-(3/20)) - 100 * normCdf (-(7/20))) := by
    rw [bsmodel_put (by decide) 100 100 0.05 1 0.2, d1_ref]
    norm_num [Real.sqrt_one]
  have hdl : delta "c" 100 100 (0.05:ℝ) 1 (0.2:ℝ) = some (normCdf (7/20)) := by
    rw [delta_call (by decide) 100 100 0.05 1 0.2, d1_ref]
  have hg : gamma 100 100 (0.05:ℝ) 1 (0.2:ℝ) = normPdf (7/20) / 20 := by
    unfold gamma
    rw [d1_ref]
    norm_num [Real.sqrt_one]
  have hv : vega 100 100 (0.05:ℝ) 1 (0.2:ℝ) = normPdf (7/20) := by
    unfold vega
    rw [d1_ref]
    norm_num [Real.sqrt_one]
  have hrh : rho "c" 100 100 (0.05:ℝ) 1 (0.2:ℝ)
      = some (Real.exp (-(1/20)) * normCdf (3/20)) := by
    rw [rho_call (by decide) 100 100 0.05 1 0.2, d1_ref]
    norm_num [Real.sqrt_one]
    ring
  have hth : theta "c" 100 100 (0.05:ℝ) 1 (0.2:ℝ)
      = some ((-(10 * normPdf (7/20)) - 5 * (Real.exp (-(1/20)) * normCdf (3/20))) / 365) := by
    rw [theta_call (by decide) 100 100 0.05 1 0.2, d1_ref]
    norm_num [Real.sqrt_one]
    ring_nf
  have hF1 := normCdf_35_bounds
  have hF2 := normCdf_15_bounds
  have hff := normPdf_35_bounds
  have he := exp_neg_one_twentieth_bounds
  have hn2 : normCdf (-(3/20 : ℝ)) = 1 - normCdf (3/20) := by
    linarith [normCdf_add_neg (3/20 : ℝ)]
  have hn1 : normCdf (-(7/20 : ℝ)) = 1 - normCdf (7/20) := by
    linarith [normCdf_add_neg (7/20 : ℝ)]
  have hXlo : (0.55961767 : ℝ) * 0.9512294245
      ≤ normCdf (3/20) * Real.exp (-(1/20)) :=
    mul_le_mul hF2.1 he.1 (by norm_num) (normCdf_nonneg _)
  have hXhi : normCdf (3/20) * Real.exp (-(1/20))
      ≤ (0.55961771 : ℝ) * 0.95122942451 :=
    mul_le_mul hF2.2 he.2 (Real.exp_pos _).le (by norm_num)
  rw [hn2, hn1] at hp
  refine ⟨_, _, _, _, _, hc, hp, hdl, hth, hrh, ?_, ?_, ?_, ?_, ?_, ?_, ?_⟩
  · rw [abs_sub_lt_iff]
    constructor <;> linarith [hXlo, hXhi, hF1.1, hF1.2]
  · rw [abs_sub_lt_iff]
    constructor <;> linarith [hXlo, hXhi, hF1.1, hF1.2, he.1, he.2]
  · rw [abs_sub_lt_iff]
    constructor <;> linarith [hF1.1, hF1.2]
  · rw [hg, abs_sub_lt_iff]
    constructor <;> linarith [hff.1, hff.2]
  · rw [hv, abs_sub_lt_iff]
    constructor <;> linarith [hff.1, hff.2]
  · rw [abs_sub_lt_iff]
    constructor <;> linarith [hXlo, hXhi]
  · rw [abs_sub_lt_iff]
    constructor <;> linarith [hXlo, hXhi, hff.1, hff.2]

/-- Claim C9 (code bug): the claim says BOTH variants interpret a
percentage-suffixed rate/volatility string as `value/100` and convert a
maturity greater than 1 to `days/365`.  The procedural variant does, and the
maturity conversion (identical code in both variants) does; but in the
object-oriented variant `float()` is applied BEFORE the `%` test (whose
condition `"%" in str(r)` on a float is then always false, contradicting its
own comment), so a percentage string like `"5%"` raises `ValueError` and is
rejected instead of being divided by 100. -/
theorem percent_and_maturity_handling :
    procPctScalar "5%" = .ok (5/100) ∧
    procPctScalar "20%" = .ok (20/100) ∧
    getInputMaturity "400" = .ok (400/365) ∧
    getInputMaturity "0.5" = .ok (1/2) ∧
    oopPctScalar "5%" = .error .valueError ∧
    oopPctScalar "20%" = .error .valueError := by
  refine ⟨?_, ?_, ?_, ?_, rfl, rfl⟩
  · rw [show procPctScalar "5%" = .ok (1 * decVal ['5'] [] / 100) from rfl]
    norm_num [decVal, show '5'.toNat = 53 from rfl]
  · rw [show procPctScalar "20%" = .ok (1 * decVal ['2', '0'] [] / 100) from rfl]
    norm_num [decVal, show '2'.toNat = 50 from rfl, show '0'.toNat = 48 from rfl]
  · rw [show getInputMaturity "400"
        = ((pyFloat "400").map fun t => if 1 < t then t / 365 else t) from rfl,
      show pyFloat "400" = .ok (1 * decVal ['4', '0', '0'] []) from rfl]
    norm_num [decVal, Except.map, show '4'.toNat = 52 from rfl, show '0'.toNat = 48 from rfl]
  · rw [show getInputMaturity "0.5"
        = ((pyFloat "0.5").map fun t => if 1 < t then t / 365 else t) from rfl,
      show pyFloat "0.5" = .ok (1 * decVal ['0'] ['5']) from rfl]
    norm_num [decVal, Except.map, show '5'.toNat = 53 from rfl, show '0'.toNat = 48 from rfl]

/-- Claim C10: in the object-oriented variant, for any kinds in the
enumeration, `calculate_option_metrics` returns BOTH the call and the put
price in its single result, with values given by `calculate_call_price` and
`calculate_put_price`, and these two price components do not depend on the
stored kind. -/
theorem metrics_contains_both_prices (k1 k2 : String) (S K r t sigma : ℝ)
    (h1 : k1 ∈ ["c", "call", "p", "put"]) (h2 : k2 ∈ ["c", "call", "p", "put"]) :
    (BlackScholesModel.mk k1 S K r t sigma).calculate_option_metrics.call_price
      = (BlackScholesModel.mk k2 S K r t sigma).calculate_option_metrics.call_price ∧
    (BlackScholesModel.mk k1 S K r t sigma).calculate_option_metrics.put_price
      = (BlackScholesModel.mk k2 S K r t sigma).calculate_option_metrics.put_price ∧
    (BlackScholesModel.mk k1 S K r t sigma).calculate_option_metrics.call_price
      = (BlackScholesModel.mk k1 S K r t sigma).calculate_call_price
          (normCdf (d1 S K r t sigma))
          (normCdf (d1 S K r t sigma - sigma * Real.sqrt t)) ∧
    (BlackScholesModel.mk k1 S K r t sigma).calculate_option_metrics.put_price
      = (BlackScholesModel.mk k1 S K r t sigma).calculate_put_price
          (normCdf (-(d1 S K r t sigma)))
          (normCdf (-(d1 S K r t sigma - sigma * Real.sqrt t))) :=
  ⟨rfl, rfl, rfl, rfl⟩

/-- Witness for C10 at kinds `"call"`, `"put"`, `S = K = t = sigma = 1`, `r = 0`. -/
theorem metrics_contains_both_prices_witness :
    (BlackScholesModel.mk "call" 1 1 0 1 1).calculate_option_metrics.call_price
      = (BlackScholesModel.mk "put" 1 1 0 1 1).calculate_option_metrics.call_price ∧
    (BlackScholesModel.mk "call" 1 1 0 1 1).calculate_option_metrics.put_price
      = (BlackScholesModel.mk "put" 1 1 0 1 1).calculate_option_metrics.put_price ∧
    (BlackScholesModel.mk "call" 1 1 0 1 1).calculate_option_metrics.call_price
      = (BlackScholesModel.mk "call" 1 1 0 1 1).calculate_call_price
          (normCdf (d1 1 1 0 1 1))
          (normCdf (d1 1 1 0 1 1 - 1 * Real.sqrt 1)) ∧
    (BlackScholesModel.mk "call" 1 1 0 1 1).calculate_option_metrics.put_price
      = (BlackScholesModel.mk "call" 1 1 0 1 1).calculate_put_price
          (normCdf (-(d1 1 1 0 1 1)))
          (normCdf (-(d1 1 1 0 1 1 - 1 * Real.sqrt 1))) :=
  metrics_contains_both_prices "call" "put" 1 1 0 1 1 (by decide) (by decide)

end BSPricer
